import Mathlib

/-!
The gruenbeck plugin (collectd): shallow embedding of `src/gruenbeck.c`.

The embedding follows `read_from_device` and `gruenbeck_read` statement by
statement.  Everything the C code obtains from its environment (the clock,
`access`/`fopen` outcomes, the outcome of each `curl_easy_perform`, the
document libxml2 builds from the response buffer) is an explicit input in
`Env`; the process-wide globals and the history file are an explicit `State`.

Conventions
* C strings are compared through their character lists; the end of the list
  plays the role of the terminating NUL.
* `int` values are integers kept in the 32-bit range with `wrap32`
  (two's-complement wrap-around for `--retries` and for the cast in `atoi`).
* `time_t` is a 64-bit `long`; every time value the code computes lies within
  fourteen days of the result of `mktime`, so it is modelled as an unbounded
  integer.
* The write `values[idx - 1]` of line 173 has no range check.  A write
  outside `values[0..13]` is recorded by `read_from_device` (field `oob`) and
  not performed; `gruenbeck_read` has no result (`none`) for such a cycle,
  because the write hits its own locals or memory outside the stack.
* The history file is represented by the `long` that `fscanf("%ld")` scans
  from it (`none` when the file is absent or holds nothing scannable);
  `fprintf("%ld")` stores such a value.
-/

namespace Gruenbeck

/-! Section: C library helpers -/

/-- Two's-complement reduction of an integer to the range of a 32-bit `int`. -/
def wrap32 (x : Int) : Int := (x + 2147483648) % 4294967296 - 2147483648

/-- The code unit a C string pointer designates: the first character, or NUL
at the end of the string. -/
def headByte : List Char → Nat
  | [] => 0
  | c :: _ => c.toNat

/-- The function `strncmp(a, b, n)` on NUL-terminated strings: compares at
most `n` characters and stops at the first difference or at a NUL.  Only the
zero / non-zero distinction of the result is used by the plugin. -/
def strncmp (a b : List Char) : Nat → Int
  | 0 => 0
  | n + 1 =>
    if headByte a ≠ headByte b then (headByte a : Int) - (headByte b : Int)
    else if headByte a = 0 then 0
    else strncmp a.tail b.tail n

/-- The predicate `isspace` of the C locale: space, and the control
characters 9 to 13 (`\t \n \v \f \r`). -/
def isspace (c : Char) : Bool :=
  c.toNat = 32 || (9 ≤ c.toNat && c.toNat ≤ 13)

/-- Drop the leading white space, as `strtol` does. -/
def skipSpaces : List Char → List Char
  | [] => []
  | c :: cs => if isspace c then skipSpaces cs else c :: cs

/-- Value of the longest prefix of decimal digits, starting from `acc`. -/
def digitsValue (acc : Nat) : List Char → Nat
  | [] => acc
  | c :: cs =>
    if c.isDigit then digitsValue (acc * 10 + (c.toNat - '0'.toNat)) cs else acc

/-- The function `strtol(s, NULL, 10)` on a 64-bit `long`: white space, an
optional sign, decimal digits; the result saturates at `LONG_MIN`/`LONG_MAX`. -/
def strtol10 (s : List Char) : Int :=
  let v : Int :=
    match skipSpaces s with
    | '-' :: cs => 0 - (digitsValue 0 cs : Int)
    | '+' :: cs => (digitsValue 0 cs : Int)
    | cs => (digitsValue 0 cs : Int)
  if v > 9223372036854775807 then 9223372036854775807
  else if v < -9223372036854775808 then -9223372036854775808
  else v

/-- The function `atoi`: `(int) strtol(s, NULL, 10)`. -/
def atoi (s : List Char) : Int := wrap32 (strtol10 s)

/-! Section: Data model -/

/-- A child node of the response's root element, as the loop of
`read_from_device` sees it: whether `type == XML_ELEMENT_NODE`, its `name`,
and the text `xmlNodeGetContent` returns for it. -/
structure XmlNode where
  isElement : Bool
  name : String
  content : String
  deriving DecidableEq, Repr

/-- What libxml2 makes of the response buffer. -/
inductive Response where
  /-- The call of `xmlReadMemory` returned `NULL`. -/
  | unparsable
  /-- The call of `xmlDocGetRootElement` returned `NULL`. -/
  | noRoot
  /-- The root element's children, in document order. -/
  | root (children : List XmlNode)
  deriving DecidableEq, Repr

/-- Outcome of `access(HISTORY_FILE, R_OK | W_OK)` together with `errno`. -/
inductive AccessResult where
  /-- The call returned 0. -/
  | ok
  /-- The call failed with `errno == ENOENT`. -/
  | enoent
  /-- The call failed with another `errno`. -/
  | denied
  deriving DecidableEq, Repr

/-- One call of `plugin_dispatch_values`: the `time_t` handed to
`TIME_T_TO_CDTIME_T` and the `int` stored in the gauge. -/
structure Sample where
  time : Int
  value : Int
  deriving DecidableEq, Repr

/-- The state that outlives a call of `gruenbeck_read`: the globals `retries`
and `useHistory`, and the content of the history file. -/
structure State where
  retries : Int
  useHistory : Bool
  history : Option Int
  deriving DecidableEq, Repr

/-- The environment of one call of `gruenbeck_read`. -/
structure Env where
  /-- The field `tm_hour` that `localtime_r` computes for `time(NULL)`. -/
  tm_hour : Int
  /-- The result of `mktime` for today at 23:00:00 local time. -/
  mktime : Int
  /-- Outcome of `access` on the history file. -/
  access : AccessResult
  /-- Whether `fopen(HISTORY_FILE, "rt")` succeeds. -/
  fopenRead : Bool
  /-- Whether `fopen(HISTORY_FILE, "wt")` succeeds. -/
  fopenWrite : Bool
  /-- Whether the k-th call (from 0) of `curl_easy_perform` returns
  `CURLE_OK`. -/
  net : Nat → Bool
  /-- The document parsed from the response buffer. -/
  response : Response

/-! Section: `read_from_device` -/

/-- Result of the `do ... while (--retries)` loop. -/
structure FetchResult where
  /-- Whether `curlErr == CURLE_OK` after the loop. -/
  ok : Bool
  /-- The global `retries` after the loop. -/
  retries : Int
  /-- Number of calls of `curl_easy_perform`. -/
  attempts : Nat
  /-- Number of calls of `sleep(3)`. -/
  sleeps : Nat
  deriving DecidableEq, Repr

/-- The fetch loop of `read_from_device` (lines 126-134).  `attempts` and
`sleeps` count the calls made so far; `fuel` bounds the number of
iterations, and `none` means the loop is still running when it is used up. -/
def fetchLoop (net : Nat → Bool) : Nat → Int → Nat → Nat → Option FetchResult
  | 0, _, _, _ => none
  | fuel + 1, retries, attempts, sleeps =>
    if net attempts then
      some ⟨true, retries, attempts + 1, sleeps⟩
    else
      let retries1 := wrap32 (retries - 1)
      if retries1 ≠ 0 then fetchLoop net fuel retries1 (attempts + 1) (sleeps + 1)
      else some ⟨false, retries1, attempts + 1, sleeps + 1⟩

/-- The variables the scan of the root's children updates: the array
`values[14]`, `errCode`, and the indices of the writes `values[idx - 1]` that
fall outside the array, in the order they happen.  The source makes such a
write without a range check; it lands in the frame of `gruenbeck_read` or
outside the stack, and C defines no behaviour from there on.  A state with a
non-empty `oob` therefore only reports that the write took place: its other
fields are no prediction of what the program does next. -/
structure ParseState where
  values : List Int
  errCode : Int
  oob : List Int
  deriving DecidableEq, Repr

/-- The assignment `values[i] = v; errCode = 0;` (lines 173-174).  The source
has no range check.  A write inside `values[0..13]` updates the array; a
write outside it is recorded in `oob`, since the memory it hits is not part
of this model, and a cycle in which it happens has no result
(`gruenbeck_read` is `none` there). -/
def storeValue (ps : ParseState) (i v : Int) : ParseState :=
  if 0 ≤ i ∧ i < 14 then
    { ps with values := ps.values.set i.toNat v, errCode := 0 }
  else
    { ps with errCode := 0, oob := ps.oob ++ [i] }

/-- The loop over `rootNode->children` (lines 159-180). -/
def scanChildren (useHistory : Bool) : List XmlNode → ParseState → ParseState
  | [], ps => ps
  | c :: rest, ps =>
    if c.isElement then
      if strncmp c.name.toList "code".toList 5 = 0 then
        if strncmp c.content.toList "ok".toList 3 ≠ 0 then ps
        else scanChildren useHistory rest ps
      else if strncmp c.name.toList "D_Y_2_".toList 6 = 0 then
        let idx := atoi (c.name.toList.drop 6)
        let ps1 := storeValue ps (idx - 1) (atoi c.content.toList)
        if idx = 1 ∧ useHistory = false then ps1
        else scanChildren useHistory rest ps1
      else scanChildren useHistory rest ps
    else scanChildren useHistory rest ps

/-- State of the parse before the first child: `memset(values, 0, ...)` and
`errCode = -1`. -/
def initParse : ParseState := ⟨List.replicate 14 0, -1, []⟩

/-- Result of `read_from_device`. -/
structure ReadResult where
  /-- The return value `errCode`. -/
  errCode : Int
  /-- The caller's array `values[14]` on return. -/
  values : List Int
  /-- The global `retries` on return. -/
  retries : Int
  attempts : Nat
  sleeps : Nat
  /-- Out-of-range indices written through `values[idx - 1]`. -/
  oob : List Int
  deriving DecidableEq, Repr

/-- The function `read_from_device` (lines 109-189). -/
def read_from_device (fuel : Nat) (env : Env) (retries : Int) (useHistory : Bool) :
    Option ReadResult :=
  match fetchLoop env.net fuel retries 0 0 with
  | none => none
  | some f =>
    if f.ok = false then
      some ⟨-1, initParse.values, f.retries, f.attempts, f.sleeps, []⟩
    else
      match env.response with
      | Response.unparsable =>
        some ⟨-1, initParse.values, f.retries, f.attempts, f.sleeps, []⟩
      | Response.noRoot =>
        some ⟨-1, initParse.values, f.retries, f.attempts, f.sleeps, []⟩
      | Response.root children =>
        let ps := scanChildren useHistory children initParse
        some ⟨ps.errCode, ps.values, f.retries, f.attempts, f.sleeps, ps.oob⟩

/-! Section: `gruenbeck_read` -/

/-- Result of one call of `gruenbeck_read`. -/
structure CycleResult where
  /-- The return value. -/
  ret : Int
  /-- The globals and the history file after the call. -/
  state : State
  /-- The calls of `plugin_dispatch_values`, in order. -/
  dispatched : List Sample
  /-- Calls of `curl_easy_perform` and of `sleep(3)` made by the cycle. -/
  attempts : Nat
  sleeps : Nat
  deriving DecidableEq, Repr

/-- The reconciliation loop (lines 242-254):
`for (idx = 13; idx >= 0; --idx, now += 86400)`.  The first argument is
`idx + 1`. -/
def dispatchLoop (values : List Int) (lastTimestamp : Int) : Nat → Int → List Sample
  | 0, _ => []
  | idx + 1, now =>
    (if now > lastTimestamp then [⟨now, values.getD idx 0⟩] else [])
      ++ dispatchLoop values lastTimestamp idx (now + 86400)

/-- The condition of line 215:
`useHistory && (!access(HISTORY_FILE, R_OK | W_OK) || (errno == ENOENT))`. -/
def historyMode (env : Env) (st : State) : Bool :=
  st.useHistory && (env.access = AccessResult.ok || env.access = AccessResult.enoent)

/-- The variable `lastTimestamp` after lines 217-223: the number scanned from
the history file when it can be opened and holds one, otherwise the initial
0. -/
def lastTimestamp (env : Env) (st : State) : Int :=
  if env.fopenRead then st.history.getD 0 else 0

/-- The function `gruenbeck_read` (lines 191-273).  The result is `none` when
the cycle has no defined result: the fetch loop is still running when the
fuel is used up, or the parse wrote outside `values[0..13]` (the write of
line 173 then hit the locals of this function, `lastTimestamp` among them,
or memory outside the stack). -/
def gruenbeck_read (fuel : Nat) (env : Env) (st : State) : Option CycleResult :=
  if env.tm_hour < 23 then
    some ⟨0, st, [], 0, 0⟩
  else
    let now := env.mktime - 86400
    if historyMode env st then
      let last := lastTimestamp env st
      match read_from_device fuel env st.retries st.useHistory with
      | none => none
      | some rd =>
        if rd.oob ≠ [] then none
        else if rd.errCode ≠ 0 then
          some ⟨-1, { st with retries := rd.retries }, [], rd.attempts, rd.sleeps⟩
        else
          let history := if env.fopenWrite then some now else st.history
          some ⟨0, { st with retries := rd.retries, history := history },
            dispatchLoop rd.values last 14 (now - 86400 * 13),
            rd.attempts, rd.sleeps⟩
    else
      match read_from_device fuel env st.retries st.useHistory with
      | none => none
      | some rd =>
        if rd.oob ≠ [] then none
        else if rd.errCode ≠ 0 then
          some ⟨-1, { st with retries := rd.retries }, [], rd.attempts, rd.sleeps⟩
        else
          some ⟨0, { st with retries := rd.retries }, [⟨now, rd.values.getD 0 0⟩],
            rd.attempts, rd.sleeps⟩

/-! Section: Concrete inputs used in the examples below -/

/-- An element child with the given name and text. -/
def element (name content : String) : XmlNode := ⟨true, name, content⟩

/-- A response carrying `code = ok` and the fourteen daily values 101 .. 114. -/
def fullResponse : Response :=
  Response.root
    [element "code" "ok",
     element "D_Y_2_1" "101", element "D_Y_2_2" "102", element "D_Y_2_3" "103",
     element "D_Y_2_4" "104", element "D_Y_2_5" "105", element "D_Y_2_6" "106",
     element "D_Y_2_7" "107", element "D_Y_2_8" "108", element "D_Y_2_9" "109",
     element "D_Y_2_10" "110", element "D_Y_2_11" "111", element "D_Y_2_12" "112",
     element "D_Y_2_13" "113", element "D_Y_2_14" "114"]

/-- An evening cycle (hour 23, `mktime` = 2000000) with a readable and
writable history file, a network that answers at once, and `fullResponse`. -/
def eveningEnv : Env :=
  { tm_hour := 23, mktime := 2000000, access := AccessResult.ok,
    fopenRead := true, fopenWrite := true, net := fun _ => true,
    response := fullResponse }

/-- A network on which every call of `curl_easy_perform` fails. -/
def deadNet : Nat → Bool := fun _ => false

/-- The evening cycle on the dead network. -/
def deadEnv : Env := { eveningEnv with net := deadNet }

/-- A network whose first two attempts fail and whose third succeeds. -/
def flakyNet : Nat → Bool := fun k => decide (2 ≤ k)

/-- The evening cycle on the flaky network. -/
def flakyEnv : Env := { eveningEnv with net := flakyNet }

/-! Section: Lemmas on the reconciliation loop -/

theorem dispatchLoop_time_gt (values : List Int) (last : Int) :
    ∀ (k : Nat) (now : Int) (s : Sample),
      s ∈ dispatchLoop values last k now → last < s.time := by
  intro k
  induction k with
  | zero => intro now s hs; simp [dispatchLoop] at hs
  | succ k ih =>
    intro now s hs
    simp only [dispatchLoop, List.mem_append] at hs
    rcases hs with hs | hs
    · by_cases hgt : now > last
      · simp [hgt] at hs
        subst hs
        exact hgt
      · simp [hgt] at hs
    · exact ih _ _ hs

theorem dispatchLoop_time_range (values : List Int) (last : Int) :
    ∀ (k : Nat) (now : Int) (s : Sample),
      s ∈ dispatchLoop values last k now → now ≤ s.time ∧ s.time + 86400 ≤ now + 86400 * k := by
  intro k
  induction k with
  | zero => intro now s hs; simp [dispatchLoop] at hs
  | succ k ih =>
    intro now s hs
    simp only [dispatchLoop, List.mem_append] at hs
    rcases hs with hs | hs
    · by_cases hgt : now > last
      · simp [hgt] at hs
        subst hs
        constructor
        · exact le_refl _
        · push_cast; omega
      · simp [hgt] at hs
    · have := ih _ _ hs
      constructor
      · omega
      · push_cast; omega

/-- The reconciliation loop dispatches, oldest first, exactly the readings
whose timestamp exceeds the watermark. -/
theorem dispatchLoop_eq_filter (values : List Int) (last : Int) :
    ∀ (k : Nat) (now : Int),
      dispatchLoop values last k now =
        ((List.range k).map
          (fun j : Nat => (⟨now + 86400 * (j : Int), values.getD (k - 1 - j) 0⟩ : Sample))).filter
          (fun s => decide (last < s.time)) := by
  intro k
  induction k with
  | zero => intro now; simp [dispatchLoop]
  | succ k ih =>
    intro now
    rw [dispatchLoop, ih, List.range_succ_eq_map, List.map_cons, List.map_map]
    have hfun : ((fun j : Nat => (⟨now + 86400 * (j : Int),
          values.getD (k + 1 - 1 - j) 0⟩ : Sample)) ∘ Nat.succ)
        = fun j : Nat => (⟨now + 86400 + 86400 * (j : Int), values.getD (k - 1 - j) 0⟩ : Sample) := by
      funext j
      simp only [Function.comp, Nat.succ_eq_add_one]
      have h1 : k + 1 - 1 - (j + 1) = k - 1 - j := by omega
      rw [h1]
      congr 1
      push_cast
      ring
    rw [hfun]
    by_cases hgt : now > last
    · have hlt : last < now := hgt
      simp [hlt, List.filter_cons]
    · have hlt : ¬ last < now := hgt
      simp [hlt, List.filter_cons]

/-- With a watermark below the oldest timestamp nothing is filtered out. -/
theorem dispatchLoop_all (values : List Int) (last : Int) (k : Nat) (now : Int)
    (h : last < now) :
    dispatchLoop values last k now =
      (List.range k).map
        (fun j : Nat => (⟨now + 86400 * (j : Int), values.getD (k - 1 - j) 0⟩ : Sample)) := by
  rw [dispatchLoop_eq_filter, List.filter_eq_self]
  intro s hs
  simp only [List.mem_map, List.mem_range] at hs
  obtain ⟨j, _, rfl⟩ := hs
  simp only [decide_eq_true_eq]
  have : (0 : Int) ≤ (j : Int) := Int.ofNat_nonneg j
  omega

/-- With a watermark at or above the newest timestamp nothing is dispatched. -/
theorem dispatchLoop_none (values : List Int) (last : Int) (k : Nat) (now : Int)
    (h : now + 86400 * (k : Int) ≤ last + 86400) :
    dispatchLoop values last k now = [] := by
  apply List.eq_nil_iff_forall_not_mem.mpr
  intro s hs
  have h1 := dispatchLoop_time_gt values last k now s hs
  have h2 := dispatchLoop_time_range values last k now s hs
  omega

/-! Section: A failed parse wrote nothing -/

/-- The scan keeps the invariant that a recorded out-of-range write comes
with `errCode = 0`: line 174 follows every write of line 173. -/
theorem scanChildren_oob_errCode (useHistory : Bool) :
    ∀ (cs : List XmlNode) (ps : ParseState),
      (ps.oob ≠ [] → ps.errCode = 0) →
      (scanChildren useHistory cs ps).oob ≠ [] → (scanChildren useHistory cs ps).errCode = 0 := by
  intro cs
  induction cs with
  | nil => intro ps hinv; exact hinv
  | cons c rest ih =>
    intro ps hinv
    have hstore : ∀ i v, ((storeValue ps i v).oob ≠ [] → (storeValue ps i v).errCode = 0) := by
      intro i v _
      unfold storeValue
      split <;> rfl
    simp only [scanChildren]
    split
    · split
      · split
        · exact hinv
        · exact ih ps hinv
      · split
        · split
          · exact hstore _ _
          · exact ih _ (hstore _ _)
        · exact ih ps hinv
    · exact ih ps hinv

/-- A call of `read_from_device` that returns non-zero made no write outside
the array (it made no write at all). -/
theorem read_from_device_fail_oob (fuel : Nat) (env : Env) (retries : Int)
    (useHistory : Bool) (rd : ReadResult)
    (h : read_from_device fuel env retries useHistory = some rd)
    (hfail : rd.errCode ≠ 0) : rd.oob = [] := by
  unfold read_from_device at h
  split at h
  · simp at h
  · split at h
    · injection h with h; subst h; rfl
    · split at h
      · injection h with h; subst h; rfl
      · injection h with h; subst h; rfl
      · injection h with h; subst h
        simp only [] at hfail ⊢
        by_contra hne
        exact hfail (scanChildren_oob_errCode useHistory _ initParse
          (fun h0 => absurd rfl h0) hne)

/-! Section: Lemmas on `gruenbeck_read` -/

/-- A history-mode cycle at or after 23:00 whose `read_from_device` succeeds. -/
theorem gruenbeck_read_history_ok (fuel : Nat) (env : Env) (st : State) (rd : ReadResult)
    (hhour : 23 ≤ env.tm_hour) (hmode : historyMode env st = true)
    (hrd : read_from_device fuel env st.retries st.useHistory = some rd)
    (hoob : rd.oob = [])
    (hok : rd.errCode = 0) :
    gruenbeck_read fuel env st =
      some ⟨0, { st with retries := rd.retries,
                         history := if env.fopenWrite then some (env.mktime - 86400)
                                    else st.history },
        dispatchLoop rd.values (lastTimestamp env st) 14 (env.mktime - 86400 - 86400 * 13),
        rd.attempts, rd.sleeps⟩ := by
  have hh : ¬ env.tm_hour < 23 := not_lt.mpr hhour
  simp [gruenbeck_read, hh, hmode, hrd, hok, hoob]

/-- A cycle at or after 23:00 whose `read_from_device` fails, in either mode. -/
theorem gruenbeck_read_fail (fuel : Nat) (env : Env) (st : State) (rd : ReadResult)
    (hhour : 23 ≤ env.tm_hour)
    (hrd : read_from_device fuel env st.retries st.useHistory = some rd)
    (hfail : rd.errCode ≠ 0) :
    gruenbeck_read fuel env st =
      some ⟨-1, { st with retries := rd.retries }, [], rd.attempts, rd.sleeps⟩ := by
  have hh : ¬ env.tm_hour < 23 := not_lt.mpr hhour
  have hoob : rd.oob = [] := read_from_device_fail_oob fuel env _ _ rd hrd hfail
  by_cases hmode : historyMode env st = true
  · simp [gruenbeck_read, hh, hmode, hrd, hfail, hoob]
  · simp [gruenbeck_read, hh, hmode, hrd, hfail, hoob]

/-- Every result of a history-mode cycle at or after 23:00 comes from one of
the two cases above. -/
theorem gruenbeck_read_history_inv (fuel : Nat) (env : Env) (st : State) (r : CycleResult)
    (hhour : 23 ≤ env.tm_hour) (hmode : historyMode env st = true)
    (h : gruenbeck_read fuel env st = some r) :
    ∃ rd, read_from_device fuel env st.retries st.useHistory = some rd ∧ rd.oob = [] ∧
      ((rd.errCode ≠ 0 ∧ r.ret = -1 ∧ r.dispatched = [] ∧ r.state.history = st.history) ∨
       (rd.errCode = 0 ∧ r.ret = 0 ∧
        r.dispatched =
          dispatchLoop rd.values (lastTimestamp env st) 14 (env.mktime - 86400 - 86400 * 13) ∧
        r.state.history = if env.fopenWrite then some (env.mktime - 86400) else st.history)) := by
  cases hrd : read_from_device fuel env st.retries st.useHistory with
  | none =>
    have hh : ¬ env.tm_hour < 23 := not_lt.mpr hhour
    simp [gruenbeck_read, hh, hmode, hrd] at h
  | some rd =>
    have hoob : rd.oob = [] := by
      by_contra hne
      have hh : ¬ env.tm_hour < 23 := not_lt.mpr hhour
      simp [gruenbeck_read, hh, hmode, hrd, hne] at h
    refine ⟨rd, rfl, hoob, ?_⟩
    by_cases hok : rd.errCode = 0
    · right
      rw [gruenbeck_read_history_ok fuel env st rd hhour hmode hrd hoob hok] at h
      injection h with h
      subst h
      exact ⟨hok, rfl, rfl, rfl⟩
    · left
      rw [gruenbeck_read_fail fuel env st rd hhour hrd hok] at h
      injection h with h
      subst h
      exact ⟨hok, rfl, rfl, rfl⟩

/-! Section: Lemmas on the C string helpers -/

theorem char_eq_of_toNat_eq {a b : Char} (h : a.toNat = b.toNat) : a = b := by
  apply Char.eq_of_val_eq
  apply UInt32.ext
  exact h

/-- A zero result of `strncmp` over the whole length of a NUL-free literal
means the literal is a prefix of the other string. -/
theorem strncmp_zero_starts :
    ∀ (lit s : List Char), (∀ c ∈ lit, c.toNat ≠ 0) →
      strncmp s lit lit.length = 0 → lit <+: s := by
  intro lit
  induction lit with
  | nil => intro s _ _; exact List.nil_prefix
  | cons b bs ih =>
    intro s hnz h
    have hb : b.toNat ≠ 0 := hnz b (List.mem_cons_self _ _)
    cases s with
    | nil =>
      simp only [List.length_cons, strncmp, headByte] at h
      have hne : (0 : Nat) ≠ b.toNat := fun e => hb e.symm
      simp only [hne, ne_eq, not_false_eq_true, if_true] at h
      omega
    | cons a as =>
      simp only [List.length_cons, strncmp, headByte, List.tail_cons] at h
      by_cases hab : a.toNat = b.toNat
      · have ha : a.toNat ≠ 0 := by rw [hab]; exact hb
        simp only [hab, ne_eq, not_true_eq_false, if_false, hb] at h
        have := ih as (fun c hc => hnz c (List.mem_cons_of_mem _ hc)) h
        rw [char_eq_of_toNat_eq hab]
        exact (List.prefix_cons_inj b).mpr this
      · simp only [hab, ne_eq, not_false_eq_true, if_true] at h
        omega

/-- A zero result of `strncmp` over one character more than a NUL-free
literal means the two NUL-free strings are equal. -/
theorem strncmp_zero_eq :
    ∀ (lit s : List Char), (∀ c ∈ lit, c.toNat ≠ 0) → (∀ c ∈ s, c.toNat ≠ 0) →
      strncmp s lit (lit.length + 1) = 0 → s = lit := by
  intro lit
  induction lit with
  | nil =>
    intro s _ hs h
    cases s with
    | nil => rfl
    | cons a as =>
      have ha : a.toNat ≠ 0 := hs a (List.mem_cons_self _ _)
      simp only [List.length_nil, strncmp, headByte, ne_eq, ha, not_false_eq_true,
        if_true] at h
      omega
  | cons b bs ih =>
    intro s hnz hs h
    have hb : b.toNat ≠ 0 := hnz b (List.mem_cons_self _ _)
    cases s with
    | nil =>
      simp only [List.length_cons, strncmp, headByte] at h
      have hne : (0 : Nat) ≠ b.toNat := fun e => hb e.symm
      simp only [hne, ne_eq, not_false_eq_true, if_true] at h
      omega
    | cons a as =>
      simp only [List.length_cons, strncmp, headByte, List.tail_cons] at h
      by_cases hab : a.toNat = b.toNat
      · simp only [hab, ne_eq, not_true_eq_false, if_false, hb] at h
        have := ih as (fun c hc => hnz c (List.mem_cons_of_mem _ hc))
          (fun c hc => hs c (List.mem_cons_of_mem _ hc)) h
        rw [char_eq_of_toNat_eq hab, this]
      · simp only [hab, ne_eq, not_false_eq_true, if_true] at h
        omega

/-! Section: Lemmas on the fetch loop -/

theorem wrap32_of_range (x : Int) (h1 : -2147483648 ≤ x) (h2 : x < 2147483648) :
    wrap32 x = x := by
  unfold wrap32
  omega

/-- On a dead network a positive retry count `n` is used up in `n` attempts,
each followed by a sleep. -/
theorem fetchLoop_all_fail (net : Nat → Bool) (hnet : ∀ i, net i = false) :
    ∀ (fuel : Nat) (n : Int) (a s : Nat), 1 ≤ n → n < 2147483648 → n ≤ (fuel : Int) →
      fetchLoop net fuel n a s = some ⟨false, 0, a + n.toNat, s + n.toNat⟩ := by
  intro fuel
  induction fuel with
  | zero => intro n a s h1 _ h3; simp at h3; omega
  | succ fuel ih =>
    intro n a s h1 h2 h3
    have hw : wrap32 (n - 1) = n - 1 := wrap32_of_range _ (by omega) (by omega)
    simp only [fetchLoop, hnet, hw]
    by_cases hn : n = 1
    · subst hn
      simp
    · have hne : n - 1 ≠ 0 := by omega
      simp only [Bool.false_eq_true, if_false, ne_eq, hne, not_false_eq_true, if_true]
      rw [ih (n - 1) (a + 1) (s + 1) (by omega) (by omega) (by push_cast at h3; omega)]
      have : n.toNat = (n - 1).toNat + 1 := by omega
      simp only [this, Option.some.injEq, FetchResult.mk.injEq, true_and]
      omega

/-- On a dead network a retry count that is zero or negative keeps the loop
running: it has not stopped after `fuel` attempts, for every `fuel` up to the
distance of `retries` from `INT_MIN`. -/
theorem fetchLoop_no_stop (net : Nat → Bool) (hnet : ∀ i, net i = false) :
    ∀ (fuel : Nat) (r : Int) (a s : Nat), r ≤ 0 → (fuel : Int) ≤ r + 2147483648 →
      fetchLoop net fuel r a s = none := by
  intro fuel
  induction fuel with
  | zero => intro r a s _ _; rfl
  | succ fuel ih =>
    intro r a s h1 h2
    push_cast at h2
    have hw : wrap32 (r - 1) = r - 1 := wrap32_of_range _ (by omega) (by omega)
    have hne : r - 1 ≠ 0 := by omega
    simp only [fetchLoop, hnet, hw, Bool.false_eq_true, if_false, ne_eq, hne,
      not_false_eq_true, if_true]
    exact ih (r - 1) (a + 1) (s + 1) (by omega) (by omega)

/-! Section: Lemmas on the parse -/

theorem storeValue_length (ps : ParseState) (i v : Int) :
    (storeValue ps i v).values.length = ps.values.length := by
  unfold storeValue
  split <;> simp

theorem scanChildren_length (useHistory : Bool) :
    ∀ (cs : List XmlNode) (ps : ParseState),
      (scanChildren useHistory cs ps).values.length = ps.values.length := by
  intro cs
  induction cs with
  | nil => intro ps; rfl
  | cons c rest ih =>
    intro ps
    simp only [scanChildren]
    split
    · split
      · split
        · rfl
        · exact ih ps
      · split
        · split
          · exact storeValue_length _ _ _
          · rw [ih]; exact storeValue_length _ _ _
        · exact ih ps
    · exact ih ps

/-- The array handed back by `read_from_device` has its fourteen entries. -/
theorem read_from_device_length (fuel : Nat) (env : Env) (retries : Int) (useHistory : Bool)
    (rd : ReadResult) (h : read_from_device fuel env retries useHistory = some rd) :
    rd.values.length = 14 := by
  unfold read_from_device at h
  split at h
  · simp at h
  · split at h
    · injection h with h; subst h; simp [initParse]
    · split at h
      · injection h with h; subst h; simp [initParse]
      · injection h with h; subst h; simp [initParse]
      · injection h with h; subst h
        simp only []
        rw [scanChildren_length]
        simp [initParse]

/-- A non-ok `code` element that no `D_Y_2_` element precedes ends the scan
with the state it started from. -/
theorem scanChildren_code_not_ok (useHistory : Bool) (c : XmlNode) (post : List XmlNode)
    (ps : ParseState) (hel : c.isElement = true)
    (hname : strncmp c.name.toList "code".toList 5 = 0)
    (hcontent : strncmp c.content.toList "ok".toList 3 ≠ 0) :
    ∀ (pre : List XmlNode),
      (∀ p ∈ pre, p.isElement = true → strncmp p.name.toList "D_Y_2_".toList 6 ≠ 0) →
      scanChildren useHistory (pre ++ c :: post) ps = ps := by
  intro pre
  induction pre with
  | nil =>
    intro _
    rw [List.nil_append, scanChildren, if_pos hel, if_pos hname, if_pos hcontent]
  | cons p pre ih =>
    intro hpre
    have ih1 := ih (fun q hq => hpre q (List.mem_cons_of_mem _ hq))
    have hp := hpre p (List.mem_cons_self _ _)
    simp only [List.cons_append, scanChildren]
    split
    · rename_i hpel
      split
      · split
        · rfl
        · exact ih1
      · simp only [hp hpel, if_false]
        exact ih1
    · exact ih1

/-! Section: The reconciliation loop and the watermark -/

/-- C1: in history mode no sample dispatched by a cycle of `gruenbeck_read`
has a timestamp less than or equal to the watermark read at the start of the
cycle; every dispatched timestamp is strictly greater.  A cycle has a result
`r` only when its parse wrote inside `values[0..13]`, so the watermark the
loop compares against is the one that was read. -/
theorem no_dispatch_at_or_below_watermark (fuel : Nat) (env : Env) (st : State)
    (r : CycleResult) (s : Sample)
    (hmode : historyMode env st = true)
    (h : gruenbeck_read fuel env st = some r)
    (hs : s ∈ r.dispatched) :
    lastTimestamp env st < s.time := by
  by_cases hh : env.tm_hour < 23
  · simp [gruenbeck_read, hh] at h
    subst h
    simp at hs
  · obtain ⟨rd, _, _, hcase⟩ :=
      gruenbeck_read_history_inv fuel env st r (not_lt.mp hh) hmode h
    rcases hcase with ⟨_, _, hd, _⟩ | ⟨_, _, hd, _⟩
    · rw [hd] at hs; simp at hs
    · rw [hd] at hs
      exact dispatchLoop_time_gt _ _ _ _ _ hs

/-- Witness for C1: with the watermark 1000000 and the boundary 2000000 the
cycle dispatches the sample of day index 0 at 1913600, above the watermark. -/
theorem no_dispatch_at_or_below_watermark_witness :
    lastTimestamp eveningEnv ⟨1, true, some 1000000⟩ < (⟨1913600, 101⟩ : Sample).time :=
  no_dispatch_at_or_below_watermark 1 eveningEnv ⟨1, true, some 1000000⟩
    ⟨0, ⟨1, true, some 1913600⟩,
      [⟨1049600, 111⟩, ⟨1136000, 110⟩, ⟨1222400, 109⟩, ⟨1308800, 108⟩, ⟨1395200, 107⟩,
       ⟨1481600, 106⟩, ⟨1568000, 105⟩, ⟨1654400, 104⟩, ⟨1740800, 103⟩, ⟨1827200, 102⟩,
       ⟨1913600, 101⟩], 1, 0⟩
    ⟨1913600, 101⟩ (by decide) (by decide) (by decide)

/-- C2: when a history-mode cycle at or after 23:00 succeeds (its parse wrote
inside `values[0..13]`, as for every cycle that has a result) and persists its
watermark, and a second history-mode cycle starts from that watermark, every
timestamp of the second cycle is greater than every timestamp of the first;
the watermark written by the first cycle is `mktime - 86400`, the largest
timestamp it can dispatch; and with the same day boundary the second cycle
dispatches nothing. -/
theorem consecutive_cycles_disjoint (fuel1 fuel2 : Nat) (env1 env2 : Env) (st : State)
    (r1 r2 : CycleResult)
    (hhour : 23 ≤ env1.tm_hour)
    (hmode1 : historyMode env1 st = true)
    (h1 : gruenbeck_read fuel1 env1 st = some r1)
    (hok : r1.ret = 0)
    (hwrite : env1.fopenWrite = true)
    (hmode2 : historyMode env2 r1.state = true)
    (hread : env2.fopenRead = true)
    (h2 : gruenbeck_read fuel2 env2 r1.state = some r2) :
    r1.state.history = some (env1.mktime - 86400) ∧
    (∀ s1 ∈ r1.dispatched, s1.time ≤ env1.mktime - 86400) ∧
    (∀ s1 ∈ r1.dispatched, ∀ s2 ∈ r2.dispatched, s1.time < s2.time) ∧
    (env2.mktime = env1.mktime → r2.dispatched = []) := by
  obtain ⟨rd1, _, _, hcase1⟩ := gruenbeck_read_history_inv fuel1 env1 st r1 hhour hmode1 h1
  rcases hcase1 with ⟨_, hret, _, _⟩ | ⟨_, _, hd1, hhist1⟩
  · rw [hret] at hok; simp at hok
  · rw [hwrite] at hhist1
    simp only [if_true] at hhist1
    have hlast2 : lastTimestamp env2 r1.state = env1.mktime - 86400 := by
      simp [lastTimestamp, hread, hhist1]
    have hle : ∀ s1 ∈ r1.dispatched, s1.time ≤ env1.mktime - 86400 := by
      intro s1 hs1
      rw [hd1] at hs1
      have := dispatchLoop_time_range _ _ _ _ _ hs1
      omega
    have hgt : ∀ s2 ∈ r2.dispatched, env1.mktime - 86400 < s2.time := by
      intro s2 hs2
      by_cases hh2 : env2.tm_hour < 23
      · simp [gruenbeck_read, hh2] at h2
        subst h2
        simp at hs2
      · obtain ⟨rd2, _, _, hcase2⟩ :=
          gruenbeck_read_history_inv fuel2 env2 r1.state r2 (not_lt.mp hh2) hmode2 h2
        rcases hcase2 with ⟨_, _, hd2, _⟩ | ⟨_, _, hd2, _⟩
        · rw [hd2] at hs2; simp at hs2
        · rw [hd2, hlast2] at hs2
          exact dispatchLoop_time_gt _ _ _ _ _ hs2
    refine ⟨hhist1, hle, ?_, ?_⟩
    · intro s1 hs1 s2 hs2
      have := hle s1 hs1
      have := hgt s2 hs2
      omega
    · intro hsame
      apply List.eq_nil_iff_forall_not_mem.mpr
      intro s2 hs2
      have hg := hgt s2 hs2
      by_cases hh2 : env2.tm_hour < 23
      · simp [gruenbeck_read, hh2] at h2
        subst h2
        simp at hs2
      · obtain ⟨rd2, _, _, hcase2⟩ :=
          gruenbeck_read_history_inv fuel2 env2 r1.state r2 (not_lt.mp hh2) hmode2 h2
        rcases hcase2 with ⟨_, _, hd2, _⟩ | ⟨_, _, hd2, _⟩
        · rw [hd2] at hs2; simp at hs2
        · rw [hd2] at hs2
          have := dispatchLoop_time_range _ _ _ _ _ hs2
          omega

/-- The result of the first evening cycle started without a history file. -/
def firstCycleResult : CycleResult :=
  ⟨0, ⟨1, true, some 1913600⟩,
    [⟨790400, 114⟩, ⟨876800, 113⟩, ⟨963200, 112⟩, ⟨1049600, 111⟩, ⟨1136000, 110⟩,
     ⟨1222400, 109⟩, ⟨1308800, 108⟩, ⟨1395200, 107⟩, ⟨1481600, 106⟩, ⟨1568000, 105⟩,
     ⟨1654400, 104⟩, ⟨1740800, 103⟩, ⟨1827200, 102⟩, ⟨1913600, 101⟩], 1, 0⟩

/-- Witness for C2: the evening cycle run twice in a row; the first run
dispatches fourteen samples and writes 1913600, the second dispatches none. -/
theorem consecutive_cycles_disjoint_witness :
    firstCycleResult.state.history = some (eveningEnv.mktime - 86400) ∧
    (∀ s1 ∈ firstCycleResult.dispatched, s1.time ≤ eveningEnv.mktime - 86400) ∧
    (∀ s1 ∈ firstCycleResult.dispatched,
      ∀ s2 ∈ (⟨0, ⟨1, true, some 1913600⟩, [], 1, 0⟩ : CycleResult).dispatched,
        s1.time < s2.time) ∧
    (eveningEnv.mktime = eveningEnv.mktime →
      (⟨0, ⟨1, true, some 1913600⟩, [], 1, 0⟩ : CycleResult).dispatched = []) :=
  consecutive_cycles_disjoint 1 1 eveningEnv eveningEnv ⟨1, true, none⟩
    firstCycleResult ⟨0, ⟨1, true, some 1913600⟩, [], 1, 0⟩
    (by decide) (by decide) (by decide) (by decide) (by decide) (by decide) (by decide)
    (by decide)

/-- C3: with a stored watermark of 0 and a positive oldest timestamp, a
successful history-mode cycle whose parse wrote only inside `values[0..13]`
returns 0 and dispatches exactly fourteen
samples, `values[13]` first and `values[0]` last, the k-th of them stamped
`mktime - 86400 - 13 * 86400 + k * 86400`. -/
theorem empty_watermark_dispatches_fourteen (fuel : Nat) (env : Env) (st : State)
    (rd : ReadResult)
    (hhour : 23 ≤ env.tm_hour)
    (hmode : historyMode env st = true)
    (hrd : read_from_device fuel env st.retries st.useHistory = some rd)
    (hoob : rd.oob = [])
    (hok : rd.errCode = 0)
    (hzero : lastTimestamp env st = 0)
    (hpos : 0 < env.mktime - 86400 - 86400 * 13) :
    ∃ r, gruenbeck_read fuel env st = some r ∧ r.ret = 0 ∧
      rd.values.length = 14 ∧ r.dispatched.length = 14 ∧
      r.dispatched = (List.range 14).map (fun k : Nat =>
        (⟨env.mktime - 86400 - 86400 * 13 + 86400 * (k : Int),
          rd.values.getD (13 - k) 0⟩ : Sample)) := by
  refine ⟨_, gruenbeck_read_history_ok fuel env st rd hhour hmode hrd hoob hok, rfl,
    read_from_device_length fuel env _ _ rd hrd, ?_, ?_⟩
  · simp only []
    rw [hzero, dispatchLoop_all _ _ _ _ hpos]
    simp
  · simp only []
    rw [hzero, dispatchLoop_all _ _ _ _ hpos]

/-- Witness for C3: the evening cycle started without a history file. -/
theorem empty_watermark_dispatches_fourteen_witness :
    ∃ r, gruenbeck_read 1 eveningEnv ⟨1, true, none⟩ = some r ∧ r.ret = 0 ∧
      (List.length [101, 102, 103, 104, 105, 106, 107, 108, 109, 110, 111, 112, 113, (114 : Int)]) = 14 ∧
      r.dispatched.length = 14 ∧
      r.dispatched = (List.range 14).map (fun k : Nat =>
        (⟨eveningEnv.mktime - 86400 - 86400 * 13 + 86400 * (k : Int),
          [101, 102, 103, 104, 105, 106, 107, 108, 109, 110, 111, 112, 113, (114 : Int)].getD
            (13 - k) 0⟩ : Sample)) :=
  empty_watermark_dispatches_fourteen 1 eveningEnv ⟨1, true, none⟩
    ⟨0, [101, 102, 103, 104, 105, 106, 107, 108, 109, 110, 111, 112, 113, 114], 1, 1, 0, []⟩
    (by decide) (by decide) (by decide) (by decide) (by decide) (by decide) (by decide)

/-! Section: Timestamps and the value of the watermark -/

/-- Counterexample to C4 as stated: in the evening cycle with boundary
`mktime` = 2000000 the reading `values[0]` = 101 is dispatched last with the
timestamp 1913600, no sample carries the boundary itself, and the watermark
written is 1913600, not the boundary. -/
theorem index_zero_not_stamped_with_boundary :
    ∃ r, gruenbeck_read 1 eveningEnv ⟨1, true, none⟩ = some r ∧
      r.dispatched.getLast? = some ⟨1913600, 101⟩ ∧
      (∀ s ∈ r.dispatched, s.time ≠ eveningEnv.mktime) ∧
      r.state.history = some 1913600 ∧
      r.state.history ≠ some eveningEnv.mktime :=
  ⟨firstCycleResult, by decide, by decide, by decide, by decide, by decide⟩

/-- C4 (amended): in a successful cycle at or after 23:00 whose parse wrote
only inside `values[0..13]` the reading `values[i]` carries the timestamp `(mktime - 86400) - i * 86400`, where
`mktime` is today at 23:00:00 local time.  In history mode the readings with
a timestamp above the stored watermark are dispatched from index 13 down to
index 0 and a watermark that is written is `mktime - 86400`, the timestamp of
index 0; outside history mode the one sample is `values[0]` at
`mktime - 86400`. -/
theorem reading_timestamps (fuel : Nat) (env : Env) (st : State) (rd : ReadResult)
    (hhour : 23 ≤ env.tm_hour)
    (hrd : read_from_device fuel env st.retries st.useHistory = some rd)
    (hoob : rd.oob = [])
    (hok : rd.errCode = 0) :
    ∃ r, gruenbeck_read fuel env st = some r ∧ r.ret = 0 ∧
      r.dispatched =
        (if historyMode env st = true then
          ((List.range 14).map (fun k : Nat =>
            (⟨env.mktime - 86400 - 86400 * ((13 - k : Nat) : Int),
              rd.values.getD (13 - k) 0⟩ : Sample))).filter
            (fun s => decide (lastTimestamp env st < s.time))
        else [⟨env.mktime - 86400 - 86400 * 0, rd.values.getD 0 0⟩]) ∧
      r.state.history =
        (if historyMode env st = true ∧ env.fopenWrite = true then some (env.mktime - 86400)
        else st.history) := by
  by_cases hmode : historyMode env st = true
  · refine ⟨_, gruenbeck_read_history_ok fuel env st rd hhour hmode hrd hoob hok, rfl, ?_, ?_⟩
    · simp only [hmode, if_true]
      rw [dispatchLoop_eq_filter]
      congr 1
      apply List.map_congr_left
      intro k hk
      have hk14 : k < 14 := List.mem_range.mp hk
      have hcast : ((13 - k : Nat) : Int) = 13 - (k : Int) := by omega
      rw [hcast]
      have hidx : 14 - 1 - k = 13 - k := by omega
      rw [hidx]
      congr 1
      ring
    · by_cases hw : env.fopenWrite = true
      · simp [hmode, hw]
      · simp [hmode, hw]
  · have hh : ¬ env.tm_hour < 23 := not_lt.mpr hhour
    refine ⟨⟨0, { st with retries := rd.retries }, [⟨env.mktime - 86400, rd.values.getD 0 0⟩],
      rd.attempts, rd.sleeps⟩, ?_, rfl, ?_, ?_⟩
    · simp [gruenbeck_read, hh, hmode, hrd, hok, hoob]
    · simp [hmode]
    · simp [hmode]

/-- Witness for C4 (amended): the evening cycle with the watermark 1000000. -/
theorem reading_timestamps_witness :
    ∃ r, gruenbeck_read 1 eveningEnv ⟨1, true, some 1000000⟩ = some r ∧ r.ret = 0 ∧
      r.dispatched =
        (if historyMode eveningEnv ⟨1, true, some 1000000⟩ = true then
          ((List.range 14).map (fun k : Nat =>
            (⟨eveningEnv.mktime - 86400 - 86400 * ((13 - k : Nat) : Int),
              [101, 102, 103, 104, 105, 106, 107, 108, 109, 110, 111, 112, 113,
                (114 : Int)].getD (13 - k) 0⟩ : Sample))).filter
            (fun s => decide (lastTimestamp eveningEnv ⟨1, true, some 1000000⟩ < s.time))
        else [⟨eveningEnv.mktime - 86400 - 86400 * 0,
          [101, 102, 103, 104, 105, 106, 107, 108, 109, 110, 111, 112, 113,
            (114 : Int)].getD 0 0⟩]) ∧
      r.state.history =
        (if historyMode eveningEnv ⟨1, true, some 1000000⟩ = true ∧
            eveningEnv.fopenWrite = true then some (eveningEnv.mktime - 86400)
        else (⟨1, true, some 1000000⟩ : State).history) :=
  reading_timestamps 1 eveningEnv ⟨1, true, some 1000000⟩
    ⟨0, [101, 102, 103, 104, 105, 106, 107, 108, 109, 110, 111, 112, 113, 114], 1, 1, 0, []⟩
    (by decide) (by decide) (by decide) (by decide)

/-- Counterexample to C5 as stated: with the stored watermark 5000000 and the
boundary `mktime` = 2000000 (clock set back) the successful cycle replaces
the watermark by 1913600, which is smaller. -/
theorem watermark_can_decrease :
    ∃ r w, gruenbeck_read 1 eveningEnv ⟨1, true, some 5000000⟩ = some r ∧ r.ret = 0 ∧
      r.state.history = some w ∧
      w < lastTimestamp eveningEnv ⟨1, true, some 5000000⟩ :=
  ⟨⟨0, ⟨1, true, some 1913600⟩, [], 1, 0⟩, 1913600, by decide, by decide, by decide,
    by decide⟩

/-- C5 (amended): a successful history-mode cycle whose parse wrote only
inside `values[0..13]` and that can open the history file for writing writes
`mktime - 86400`, whatever the stored watermark is.  The value written is
therefore greater than or equal to the stored watermark exactly when the
stored watermark is not greater than `mktime - 86400`, and smaller than it
otherwise. -/
theorem watermark_written_is_boundary (fuel : Nat) (env : Env) (st : State) (rd : ReadResult)
    (hhour : 23 ≤ env.tm_hour)
    (hmode : historyMode env st = true)
    (hrd : read_from_device fuel env st.retries st.useHistory = some rd)
    (hoob : rd.oob = [])
    (hok : rd.errCode = 0)
    (hwrite : env.fopenWrite = true) :
    ∃ r w, gruenbeck_read fuel env st = some r ∧ r.ret = 0 ∧
      r.state.history = some w ∧ w = env.mktime - 86400 ∧
      (lastTimestamp env st ≤ w ↔ lastTimestamp env st ≤ env.mktime - 86400) ∧
      (w < lastTimestamp env st ↔ env.mktime - 86400 < lastTimestamp env st) := by
  refine ⟨_, env.mktime - 86400,
    gruenbeck_read_history_ok fuel env st rd hhour hmode hrd hoob hok, rfl, ?_, rfl,
    Iff.rfl, Iff.rfl⟩
  simp [hwrite]

/-- Witness for C5 (amended): the evening cycle with the watermark 5000000,
above the boundary, writes 1913600 all the same. -/
theorem watermark_written_is_boundary_witness :
    ∃ r w, gruenbeck_read 1 eveningEnv ⟨1, true, some 5000000⟩ = some r ∧ r.ret = 0 ∧
      r.state.history = some w ∧ w = eveningEnv.mktime - 86400 ∧
      (lastTimestamp eveningEnv ⟨1, true, some 5000000⟩ ≤ w ↔
        lastTimestamp eveningEnv ⟨1, true, some 5000000⟩ ≤ eveningEnv.mktime - 86400) ∧
      (w < lastTimestamp eveningEnv ⟨1, true, some 5000000⟩ ↔
        eveningEnv.mktime - 86400 < lastTimestamp eveningEnv ⟨1, true, some 5000000⟩) :=
  watermark_written_is_boundary 1 eveningEnv ⟨1, true, some 5000000⟩
    ⟨0, [101, 102, 103, 104, 105, 106, 107, 108, 109, 110, 111, 112, 113, 114], 1, 1, 0, []⟩
    (by decide) (by decide) (by decide) (by decide) (by decide) (by decide)

/-! Section: Device errors and failed cycles -/

/-- The evening cycle with a response in which a daily value precedes a
failing status: `D_Y_2_1 = 5`, then `code = fail`. -/
def valueBeforeFailEnv : Env :=
  { eveningEnv with
    response := Response.root [element "D_Y_2_1" "5", element "code" "fail"] }

/-- Counterexample to C6 as stated: the root has a `code` child with the text
`fail`, yet `read_from_device` returns 0 because `D_Y_2_1` comes first; the
cycle returns 0, rewrites the watermark and dispatches samples. -/
theorem code_fail_after_value_succeeds :
    ∃ rd r,
      read_from_device 1 valueBeforeFailEnv 1 true = some rd ∧ rd.errCode = 0 ∧
      gruenbeck_read 1 valueBeforeFailEnv ⟨1, true, some 1000000⟩ = some r ∧ r.ret = 0 ∧
      r.state.history = some 1913600 ∧
      r.state.history ≠ (⟨1, true, some 1000000⟩ : State).history ∧
      r.dispatched.length = 11 :=
  ⟨⟨0, [5, 0, 0, 0, 0, 0, 0, 0, 0, 0, 0, 0, 0, 0], 1, 1, 0, []⟩,
    ⟨0, ⟨1, true, some 1913600⟩,
      [⟨1049600, 0⟩, ⟨1136000, 0⟩, ⟨1222400, 0⟩, ⟨1308800, 0⟩, ⟨1395200, 0⟩,
       ⟨1481600, 0⟩, ⟨1568000, 0⟩, ⟨1654400, 0⟩, ⟨1740800, 0⟩, ⟨1827200, 0⟩,
       ⟨1913600, 5⟩], 1, 0⟩,
    by decide, by decide, by decide, by decide, by decide, by decide, by decide⟩

/-- C6 (amended): when the root has an element child `code` whose text is not
`ok` and no element child whose name starts with `D_Y_2_` precedes it,
`read_from_device` returns -1 once the fetch loop has ended, and the cycle at
or after 23:00 returns -1, leaves the history file as it was and dispatches
no sample. -/
theorem code_not_ok_fails_cycle (fuel : Nat) (env : Env) (st : State) (f : FetchResult)
    (pre post : List XmlNode) (c : XmlNode)
    (hhour : 23 ≤ env.tm_hour)
    (hfetch : fetchLoop env.net fuel st.retries 0 0 = some f)
    (hresp : env.response = Response.root (pre ++ c :: post))
    (hel : c.isElement = true)
    (hname : c.name = "code")
    (hcontent : c.content ≠ "ok")
    (hnul : ∀ ch ∈ c.content.toList, ch.toNat ≠ 0)
    (hpre : ∀ p ∈ pre, p.isElement = true → ¬ ("D_Y_2_".toList <+: p.name.toList)) :
    ∃ rd r,
      read_from_device fuel env st.retries st.useHistory = some rd ∧ rd.errCode = -1 ∧
      gruenbeck_read fuel env st = some r ∧ r.ret = -1 ∧
      r.state.history = st.history ∧ r.dispatched = [] := by
  have hn : strncmp c.name.toList "code".toList 5 = 0 := by
    rw [hname]; decide
  have hc : strncmp c.content.toList "ok".toList 3 ≠ 0 := by
    intro h0
    apply hcontent
    apply String.ext
    exact strncmp_zero_eq "ok".toList c.content.toList (by decide) hnul h0
  have hp : ∀ p ∈ pre, p.isElement = true →
      strncmp p.name.toList "D_Y_2_".toList 6 ≠ 0 := by
    intro p hp hpel h0
    exact hpre p hp hpel (strncmp_zero_starts "D_Y_2_".toList p.name.toList (by decide) h0)
  have hscan := scanChildren_code_not_ok st.useHistory c post initParse hel hn hc pre hp
  have hrd : ∃ rd, read_from_device fuel env st.retries st.useHistory = some rd ∧
      rd.errCode = -1 := by
    simp only [read_from_device, hfetch, hresp, hscan]
    by_cases hfok : f.ok = false
    · simp [hfok]
    · simp [hfok, initParse]
  obtain ⟨rd, hrd, herr⟩ := hrd
  have hne : rd.errCode ≠ 0 := by rw [herr]; decide
  exact ⟨rd, _, hrd, herr, gruenbeck_read_fail fuel env st rd hhour hrd hne, rfl, rfl, rfl⟩

/-- The evening cycle with a response whose status is `fail`, between a text
node and a daily value. -/
def codeFailEnv : Env :=
  { eveningEnv with
    response := Response.root
      [⟨false, "text", "\n"⟩, element "code" "fail", element "D_Y_2_1" "5"] }

/-- Witness for C6 (amended): the status `fail` ahead of the daily value. -/
theorem code_not_ok_fails_cycle_witness :
    ∃ rd r,
      read_from_device 1 codeFailEnv 1 true = some rd ∧ rd.errCode = -1 ∧
      gruenbeck_read 1 codeFailEnv ⟨1, true, some 1000000⟩ = some r ∧ r.ret = -1 ∧
      r.state.history = some 1000000 ∧ r.dispatched = [] :=
  code_not_ok_fails_cycle 1 codeFailEnv ⟨1, true, some 1000000⟩ ⟨true, 1, 1, 0⟩
    [⟨false, "text", "\n"⟩] [element "D_Y_2_1" "5"] (element "code" "fail")
    (by decide) (by decide) (by decide) (by decide) (by decide) (by decide) (by decide)
    (by decide)

/-- C9: when `read_from_device` fails in a cycle at or after 23:00, in
history mode or not, `gruenbeck_read` returns -1, the history file holds what
it held before the cycle, and no sample is dispatched. -/
theorem failed_read_leaves_watermark (fuel : Nat) (env : Env) (st : State) (rd : ReadResult)
    (hhour : 23 ≤ env.tm_hour)
    (hrd : read_from_device fuel env st.retries st.useHistory = some rd)
    (hfail : rd.errCode ≠ 0) :
    ∃ r, gruenbeck_read fuel env st = some r ∧ r.ret = -1 ∧
      r.state.history = st.history ∧ r.state.useHistory = st.useHistory ∧
      r.dispatched = [] :=
  ⟨_, gruenbeck_read_fail fuel env st rd hhour hrd hfail, rfl, rfl, rfl, rfl⟩

/-- Witness for C9: the evening cycle on a dead network with three retries. -/
theorem failed_read_leaves_watermark_witness :
    ∃ r, gruenbeck_read 3 deadEnv ⟨3, true, some 1000000⟩ = some r ∧
      r.ret = -1 ∧ r.state.history = (⟨3, true, some 1000000⟩ : State).history ∧
      r.state.useHistory = (⟨3, true, some 1000000⟩ : State).useHistory ∧
      r.dispatched = [] :=
  failed_read_leaves_watermark 3 deadEnv ⟨3, true, some 1000000⟩
    ⟨-1, [0, 0, 0, 0, 0, 0, 0, 0, 0, 0, 0, 0, 0, 0], 0, 3, 3, []⟩
    (by decide) (by decide) (by decide)

/-! Section: The fetch loop -/

/-- Counterexample to C7 as stated: with a retry count of 3 on a dead network
the fetch makes 3 attempts and 3 sleeps, not 2. -/
theorem three_failures_three_sleeps :
    ∃ rd, read_from_device 3 deadEnv 3 true = some rd ∧
      rd.errCode = -1 ∧ rd.attempts = 3 ∧ rd.sleeps = 3 ∧ rd.sleeps ≠ 3 - 1 :=
  ⟨⟨-1, [0, 0, 0, 0, 0, 0, 0, 0, 0, 0, 0, 0, 0, 0], 0, 3, 3, []⟩,
    by decide, by decide, by decide, by decide, by decide⟩

/-- C7 (amended): for a retry count `n` with `1 ≤ n` on a network whose every
attempt fails, `read_from_device` makes exactly `n` attempts and exactly `n`
sleeps of 3 seconds, one after each failed attempt, the last included; it
then returns -1 with the array zeroed and leaves `retries` at 0. -/
theorem dead_network_attempts_and_sleeps (fuel : Nat) (env : Env) (n : Int)
    (useHistory : Bool)
    (hnet : ∀ i, env.net i = false)
    (hn : 1 ≤ n) (hint : n < 2147483648) (hfuel : n ≤ (fuel : Int)) :
    read_from_device fuel env n useHistory =
      some ⟨-1, List.replicate 14 0, 0, n.toNat, n.toNat, []⟩ := by
  unfold read_from_device
  rw [fetchLoop_all_fail env.net hnet fuel n 0 0 hn hint hfuel]
  simp [initParse]

/-- Witness for C7 (amended): three retries, three attempts, three sleeps. -/
theorem dead_network_attempts_and_sleeps_witness :
    read_from_device 5 deadEnv 3 true =
      some ⟨-1, List.replicate 14 0, 0, (3 : Int).toNat, (3 : Int).toNat, []⟩ :=
  dead_network_attempts_and_sleeps 5 deadEnv 3 true
    (fun _ => rfl) (by decide) (by decide) (by decide)

/-- C8 (the code departs from the claim): `read_from_device` counts down the
global `retries` itself.  Started with 3 on a network that answers at the
third attempt it returns 0 and leaves `retries` at 1, so that the next call
on a dead network stops after 1 attempt where a first call makes 3.  Started
with 2 on a dead network it leaves `retries` at 0, and a call that starts
from 0 on a dead network has not stopped after `fuel` attempts, for every
`fuel` up to 2147483648. -/
theorem retries_consumed_across_calls (fuel : Nat) (hfuel : fuel ≤ 2147483648) :
    (∃ rd, read_from_device 3 flakyEnv 3 true = some rd ∧
      rd.errCode = 0 ∧ rd.attempts = 3 ∧ rd.retries = 1 ∧ rd.retries ≠ 3) ∧
    (∃ rd, read_from_device 3 deadEnv 1 true = some rd ∧
      rd.attempts = 1) ∧
    (∃ rd, read_from_device 3 deadEnv 3 true = some rd ∧
      rd.attempts = 3) ∧
    (∃ rd, read_from_device 2 deadEnv 2 true = some rd ∧
      rd.errCode = -1 ∧ rd.retries = 0) ∧
    read_from_device fuel deadEnv 0 true = none := by
  refine ⟨⟨⟨0, [101, 102, 103, 104, 105, 106, 107, 108, 109, 110, 111, 112, 113, 114],
      1, 3, 2, []⟩, by decide, by decide, by decide, by decide, by decide⟩,
    ⟨⟨-1, List.replicate 14 0, 0, 1, 1, []⟩, by decide, by decide⟩,
    ⟨⟨-1, List.replicate 14 0, 0, 3, 3, []⟩, by decide, by decide⟩,
    ⟨⟨-1, List.replicate 14 0, 0, 2, 2, []⟩, by decide, by decide, by decide⟩, ?_⟩
  have hnet : deadEnv.net = deadNet := rfl
  rw [read_from_device, hnet,
    fetchLoop_no_stop deadNet (fun _ => rfl) fuel 0 0 0 (le_refl _) (by omega)]

/-- Witness for C8: the call starting from `retries` = 0 on a dead network is
still running after 1000 attempts. -/
theorem retries_consumed_across_calls_witness :
    (∃ rd, read_from_device 3 flakyEnv 3 true = some rd ∧
      rd.errCode = 0 ∧ rd.attempts = 3 ∧ rd.retries = 1 ∧ rd.retries ≠ 3) ∧
    (∃ rd, read_from_device 3 deadEnv 1 true = some rd ∧
      rd.attempts = 1) ∧
    (∃ rd, read_from_device 3 deadEnv 3 true = some rd ∧
      rd.attempts = 3) ∧
    (∃ rd, read_from_device 2 deadEnv 2 true = some rd ∧
      rd.errCode = -1 ∧ rd.retries = 0) ∧
    read_from_device 1000 deadEnv 0 true = none :=
  retries_consumed_across_calls 1000 (by decide)

/-! Section: Day indices outside 1..14 -/

/-- The evening cycle with a response holding `code = ok` and one daily value
under the given element name. -/
def oneValueEnv (name : String) : Env :=
  { eveningEnv with
    response := Response.root [element "code" "ok", element name "7"] }

/-- A cycle whose response holds `D_Y_2_0` or `D_Y_2_100000` has no result in
this model: the write of line 173 leaves the array. -/
theorem out_of_range_write_has_no_result :
    gruenbeck_read 1 (oneValueEnv "D_Y_2_0") ⟨1, true, none⟩ = none ∧
    gruenbeck_read 1 (oneValueEnv "D_Y_2_100000") ⟨1, true, some 1000000⟩ = none ∧
    gruenbeck_read 1 { oneValueEnv "D_Y_2_15" with access := AccessResult.denied }
      ⟨1, true, none⟩ = none :=
  ⟨by decide, by decide, by decide⟩

/-- C10 (the code departs from the claim): an element `D_Y_2_15`, `D_Y_2_0`
or `D_Y_2_x` is not ignored.  The write `values[idx - 1]` goes to index 14,
-1 and -1, outside `values[0..13]`, and sets `errCode` to 0, so the parse
succeeds on that element alone; an element `D_Y_2_14` is stored in
`values[13]`. -/
theorem day_index_out_of_range_is_written :
    (∃ rd, read_from_device 1 (oneValueEnv "D_Y_2_15") 1 true = some rd ∧
      rd.errCode = 0 ∧ rd.oob = [14] ∧ rd.values = List.replicate 14 0) ∧
    (∃ rd, read_from_device 1 (oneValueEnv "D_Y_2_0") 1 true = some rd ∧
      rd.errCode = 0 ∧ rd.oob = [-1] ∧ rd.values = List.replicate 14 0) ∧
    (∃ rd, read_from_device 1 (oneValueEnv "D_Y_2_x") 1 true = some rd ∧
      rd.errCode = 0 ∧ rd.oob = [-1] ∧ rd.values = List.replicate 14 0) ∧
    (∃ rd, read_from_device 1 (oneValueEnv "D_Y_2_14") 1 true = some rd ∧
      rd.errCode = 0 ∧ rd.oob = [] ∧
      rd.values = [0, 0, 0, 0, 0, 0, 0, 0, 0, 0, 0, 0, 0, 7]) :=
  ⟨⟨⟨0, List.replicate 14 0, 1, 1, 0, [14]⟩, by decide, by decide, by decide, by decide⟩,
   ⟨⟨0, List.replicate 14 0, 1, 1, 0, [-1]⟩, by decide, by decide, by decide, by decide⟩,
   ⟨⟨0, List.replicate 14 0, 1, 1, 0, [-1]⟩, by decide, by decide, by decide, by decide⟩,
   ⟨⟨0, [0, 0, 0, 0, 0, 0, 0, 0, 0, 0, 0, 0, 0, 7], 1, 1, 0, []⟩,
    by decide, by decide, by decide, by decide⟩⟩

end Gruenbeck
